import Mathlib

/-!
# Verification of the tensorpool CLI streaming-session core

Shallow embedding of the WebSocket session functions of
`src/tensorpool/helpers.py` (`_job_push_async`, `_ws_operation_async`) and of
the static import/call structure of `src/tensorpool/main.py`.

The embedding is driven by an explicit trace of environment events (what each
`websocket.recv()` call yields, how each spawned subprocess behaves, what the
local user types at a prompt).  Every observable effect of the Python code
(outbound WebSocket frames, `print` calls, spinner interactions, command
executions) is recorded in a chronological action list, so that ordering
properties can be stated directly.
-/

namespace Tensorpool

/-- Python truthiness of an optional string: `None` and `""` are falsy,
every other string is truthy.  Used wherever the source writes
`if not x:` / `x or default` on an `Optional[str]`. -/
def pyTruthy : Option String → Bool
  | none => false
  | some s => !s.isEmpty

/-- Python `x or default` for an `Optional[str]` `x`. -/
def pyOr (x : Option String) (default : String) : String :=
  if pyTruthy x then x.getD "" else default

/-- `ENGINE.replace('http://', 'ws://').replace('https://', 'wss://') + endpoint`
(helpers.py lines 371-373 and 907-909). -/
def wsUrl (engine endpoint : String) : String :=
  ((engine.replace "http://" "ws://").replace "https://" "wss://") ++ endpoint

/-- One decoded inbound JSON frame, restricted to the keys the sessions read.
`status`/`message` model `data.get(...)` (absent key = `none`).
`hasJobId`/`jobIdVal` model `"job_id" in data` / `data["job_id"]` (a present
key whose value is JSON null is `hasJobId = true, jobIdVal = none`);
`hasCommand`/`commandVal` likewise for `"command"`.
`showStdout` models `data.get("command_show_stdout", False)`. -/
structure InFrame where
  status : Option String := none
  message : Option String := none
  hasJobId : Bool := false
  jobIdVal : Option String := none
  hasCommand : Bool := false
  commandVal : Option String := none
  showStdout : Bool := false
  deriving Repr, DecidableEq

/-- Job-push second frame: the `initial_data` dict of `_job_push_async`
(helpers.py lines 386-392). -/
structure PushInit where
  tp_config : String
  public_key_path : String
  private_key_path : String
  public_keys : List String
  system : String
  deriving Repr, DecidableEq

/-- One outbound WebSocket frame, tagged by its shape. -/
inductive OutFrame where
  /-- `{"TENSORPOOL_KEY": api_key}` -/
  | auth (key : String)
  /-- the `initial_data` dict sent by `_job_push_async` -/
  | payloadPush (d : PushInit)
  /-- the `payload` dict sent by `_ws_operation_async` (content opaque,
  modelled as its list of entries) -/
  | payloadObj (entries : List (String × String))
  /-- `{"response": line}` -/
  | response (line : String)
  /-- `{"type": "command_result", "command": c, "exit_code": e,
  "command_stdout": o, "command_stderr": s}` -/
  | commandResult (command : String) (exit_code : Int) (stdout stderr : String)
  deriving Repr, DecidableEq

/-- One observable action of a session, in chronological order. -/
inductive Act where
  | connect (url : String)
  | send (f : OutFrame)
  /-- a frame was received by `websocket.recv()` and successfully decoded -/
  | recvFrame (f : InFrame)
  | printLine (s : String)
  /-- `spinner.update_text(s)` -/
  | spinnerText (s : String)
  | spinnerPause
  | spinnerResume
  /-- `input(prompt)` returning `line` -/
  | promptRead (prompt : String) (line : String)
  /-- `subprocess.Popen(command, shell=True, ...)` was attempted -/
  | execute (command : String) (showStdout : Bool)
  deriving Repr, DecidableEq

/-- The outbound frames among a list of actions, in order. -/
def sentFrames (acts : List Act) : List OutFrame :=
  acts.filterMap fun a =>
    match a with
    | .send f => some f
    | _ => none

/-- The lines printed to stdout among a list of actions, in order. -/
def printedLines (acts : List Act) : List String :=
  acts.filterMap fun a =>
    match a with
    | .printLine s => some s
    | _ => none

/-- The commands whose execution was attempted, in order. -/
def executedCommands (acts : List Act) : List String :=
  acts.filterMap fun a =>
    match a with
    | .execute c _ => some c
    | _ => none

/-! ## `_job_push_async` (helpers.py lines 364-537) -/

/-- Behaviour of the environment for one dispatched command:
either the subprocess spawns and runs to completion (yielding an exit code and
the line lists drained by the two reader threads), or `subprocess.Popen`
raises an exception whose `str` is `errText`. -/
inductive ExecBehavior where
  | runs (exitCode : Int) (stdoutLines stderrLines : List String)
  | spawnFails (errText : String)
  deriving Repr, DecidableEq

/-- What one `await websocket.recv()` in `_job_push_async` yields:
a decodable frame (together with the environment's behaviour for the command
it may carry), a frame that is not valid JSON (`json.loads` raises, `errText`
is the exception text), a `ConnectionClosed` with the given code and reason,
another `WebSocketException`, or any other exception. -/
inductive PushEvent where
  | frame (f : InFrame) (exec : ExecBehavior)
  | badJson (errText : String)
  | connClosed (code : Nat) (reason : String)
  | wsError (errText : String)
  | otherError (errText : String)
  deriving Repr, DecidableEq

/-- Mutable locals of `_job_push_async`'s loop that survive across iterations:
the captured `job_id`, and the Python local variable `stderr`, which is
`none` while it has never been assigned (it is only assigned on a completed
execution, helpers.py line 484 — not in the `except` branch, lines 493-496). -/
structure PushState where
  jobId : Option String
  stderrVar : Option String
  deriving Repr, DecidableEq

/-- Exception text of the `UnboundLocalError` raised when the `except` branch
of the command executor reads the never-assigned local `stderr` while building
the result dict (helpers.py line 507).  The exact wording is CPython's; only
the fact that it is some exception caught by the generic handler matters. -/
def unboundStderrText : String :=
  "cannot access local variable stderr where it is not associated with a value"

/-- Result of the command-dispatch block for one frame: either the loop
continues with a (possibly updated) `stderr` local, or reading the unbound
`stderr` raised and the exception propagates out of the loop. -/
inductive CmdStep where
  | next (stderrVar : Option String)
  | raisedUnbound
  deriving Repr, DecidableEq

/-- The command-dispatch block of `_job_push_async` (helpers.py lines 417-509)
for a truthy `command` `c`: spawn, drain, optionally print captured output on
failure, then send the `command_result` frame.  On a spawn failure the code
prints the exception, sets `stdout = ""` and `returncode = 1`, but does not
assign `stderr`; the result dict then reads whatever `stderr` held before
(or raises `UnboundLocalError` if it was never assigned). -/
def pushCommand (c : String) (showStdout : Bool) (exec : ExecBehavior)
    (stderrVar : Option String) : List Act × CmdStep :=
  match exec with
  | .runs exitCode outLines errLines =>
    let out := String.join outLines
    let err := String.join errLines
    let failPrints :=
      if exitCode ≠ 0 && !showStdout then
        (if err ≠ "" then [Act.printLine ("Command error: " ++ err)] else []) ++
        (if out ≠ "" then [Act.printLine ("Command output: " ++ out)] else [])
      else []
    (Act.execute c showStdout :: failPrints ++
       [Act.send (.commandResult c exitCode out err)],
     .next (some err))
  | .spawnFails errText =>
    match stderrVar with
    | some prev =>
      ([Act.execute c showStdout,
        Act.printLine ("Failed to execute command: " ++ errText),
        Act.send (.commandResult c 1 "" prev)],
       .next (some prev))
    | none =>
      ([Act.execute c showStdout,
        Act.printLine ("Failed to execute command: " ++ errText)],
       .raisedUnbound)

/-- The message loop of `_job_push_async` (helpers.py lines 397-537), folded
over the environment events, together with the surrounding exception handlers.
Returns `none` as outcome if the event list runs out while the coroutine would
still be blocked in `recv`, otherwise the `(success, job_id)` pair the
function returns. -/
def pushLoop : List PushEvent → PushState → Option (Bool × Option String) × List Act
  | [], _ => (none, [])
  | ev :: rest, st =>
    match ev with
    | .frame f exec =>
      let jobId := if f.hasJobId && !pyTruthy st.jobId then f.jobIdVal else st.jobId
      let msgActs :=
        match f.message with
        | some m => [Act.printLine m]
        | none => []
      if f.hasCommand && pyTruthy f.commandVal then
        let c := f.commandVal.getD ""
        let step := pushCommand c f.showStdout exec st.stderrVar
        match step.2 with
        | .next sv =>
          let r := pushLoop rest ⟨jobId, sv⟩
          (r.1, Act.recvFrame f :: msgActs ++ step.1 ++ r.2)
        | .raisedUnbound =>
          (some (false, none),
           Act.recvFrame f :: msgActs ++ step.1 ++
             [Act.printLine ("Unexpected error: " ++ unboundStderrText)])
      else
        let r := pushLoop rest ⟨jobId, st.stderrVar⟩
        (r.1, Act.recvFrame f :: msgActs ++ r.2)
    | .badJson t =>
      (some (false, none), [Act.printLine ("Unexpected error: " ++ t)])
    | .connClosed code reason =>
      if code = 1000 then (some (true, st.jobId), [])
      else if code = 1006 then
        (some (false, st.jobId),
         [Act.printLine "Connection lost during job submission.",
          Act.printLine "Check job status with `tp job list`. Job likely has to be resubmitted."])
      else
        (some (false, st.jobId),
         Act.printLine ("Job connection closed, code = " ++ toString code) ::
           (if reason ≠ "" then [Act.printLine reason] else []))
    | .wsError t =>
      (some (false, none), [Act.printLine ("WebSocket error: " ++ t)])
    | .otherError t =>
      (some (false, none), [Act.printLine ("Unexpected error: " ++ t)])

/-- `_job_push_async` (helpers.py lines 364-537): connect, send the auth
frame, send the job-configuration frame, then run the message loop.
`engine` models the `ENGINE` global, `systemName` models `platform.system()`. -/
def job_push_async (engine tp_config public_key_contents api_key
    tensorpool_pub_key_path tensorpool_priv_key_path systemName : String)
    (events : List PushEvent) : Option (Bool × Option String) × List Act :=
  let url := wsUrl engine "/job/push"
  let initial : PushInit :=
    ⟨tp_config, tensorpool_pub_key_path, tensorpool_priv_key_path,
     [public_key_contents], systemName⟩
  let r := pushLoop events ⟨none, none⟩
  (r.1,
   Act.connect url :: Act.send (.auth api_key) ::
     Act.send (.payloadPush initial) :: r.2)

/-! ## `_ws_operation_async` (helpers.py lines 879-996) -/

/-- What one `await websocket.recv()` in `_ws_operation_async` yields.
`userLine` is the line the local user would type if this frame triggers the
interactive prompt (unused otherwise). -/
inductive WsEvent where
  | frame (f : InFrame) (userLine : String)
  | badJson (errText : String)
  | connClosed (code : Nat) (reason : String)
  | wsError (errText : String)
  | otherError (errText : String)
  deriving Repr, DecidableEq

/-- Arguments of `_ws_operation_async` other than the event trace.
`spinner` records whether a `Spinner` instance was passed (`true`) or `None`. -/
structure WsParams where
  endpoint : String
  spinner : Bool := false
  payload : Option (List (String × String)) := none
  handleUserInput : Bool := false
  successMessage : String := "Operation completed successfully"
  errorMessage : String := "Operation failed"
  unexpectedEndMessage : String := "Connection ended unexpectedly"
  deriving Repr, DecidableEq

/-- How the `try` block of `_ws_operation_async` ended: loop broke on a
terminal status, `ConnectionClosed` was raised (carrying the `status`/`msg`
locals at that point), another `WebSocketException` was raised, some other
exception was raised, or the event trace ran out mid-loop. -/
inductive WsLoopExit where
  | broke (status msg : Option String)
  | closed (code : Nat) (reason : String) (status msg : Option String)
  | wsErr (errText : String)
  | pyErr (errText : String)
  | pending (status msg : Option String)
  deriving Repr, DecidableEq

/-- The message loop of `_ws_operation_async` (helpers.py lines 928-963).
`status` and `msg` are the loop's locals, overwritten from every frame. -/
def wsLoop (p : WsParams) :
    List WsEvent → Option String → Option String → WsLoopExit × List Act
  | [], status, msg => (.pending status msg, [])
  | ev :: rest, status, msg =>
    match ev with
    | .frame f userLine =>
      if p.handleUserInput && f.status = some "input" then
        let acts :=
          Act.recvFrame f ::
            (if p.spinner then [Act.spinnerPause] else []) ++
            [Act.promptRead (if pyTruthy f.message then f.message.getD "" else "")
              userLine] ++
            (if p.spinner then [Act.spinnerResume] else []) ++
            [Act.send (.response userLine)]
        let r := wsLoop p rest f.status f.message
        (r.1, acts ++ r.2)
      else
        let dispActs :=
          if pyTruthy f.message then
            [if p.spinner then Act.spinnerText (f.message.getD "")
             else Act.printLine (f.message.getD "")]
          else []
        if f.status = some "success" || f.status = some "error" then
          (.broke f.status f.message, Act.recvFrame f :: dispActs)
        else
          let r := wsLoop p rest f.status f.message
          (r.1, (Act.recvFrame f :: dispActs) ++ r.2)
    | .badJson t => (.pyErr t, [])
    | .connClosed c r => (.closed c r status msg, [])
    | .wsError t => (.wsErr t, [])
    | .otherError t => (.pyErr t, [])

/-- The post-`try` classification of `_ws_operation_async`
(helpers.py lines 983-996), reached when the loop broke on a terminal status
or when `ConnectionClosed` with code 1000 was caught. -/
def wsFinal (p : WsParams) (status msg : Option String)
    (closeCode : Option Nat) (closeReason : String) : Bool × String :=
  if status = some "success" then
    (true, if p.spinner then pyOr msg p.successMessage else "")
  else if status = some "error" then
    (false, if p.spinner then pyOr msg p.errorMessage else "")
  else
    match closeCode with
    | some c =>
      let withCode := p.unexpectedEndMessage ++ "\nClose code: " ++ toString c
      (false,
       if closeReason ≠ "" then withCode ++ ", reason: " ++ closeReason
       else withCode)
    | none => (false, p.unexpectedEndMessage)

/-- `_ws_operation_async` (helpers.py lines 879-996): bail out if no API key,
else connect, send the auth frame, send the payload frame if a payload was
given, run the message loop and classify its exit.  Returns `none` as outcome
if the trace ran out mid-loop, else the `(success, message)` pair. -/
def ws_operation_async (engine : String) (p : WsParams) (apiKey : Option String)
    (events : List WsEvent) : Option (Bool × String) × List Act :=
  if !pyTruthy apiKey then
    (some (false, "TENSORPOOL_KEY not found. Please set your API key."), [])
  else
    let pre :=
      Act.connect (wsUrl engine p.endpoint) ::
        Act.send (.auth (apiKey.getD "")) ::
        (match p.payload with
         | some pl => [Act.send (.payloadObj pl)]
         | none => [])
    match wsLoop p events none none with
    | (.pending _ _, acts) => (none, pre ++ acts)
    | (.broke status msg, acts) =>
      (some (wsFinal p status msg none ""), pre ++ acts)
    | (.closed c r status msg, acts) =>
      if c = 1000 then (some (wsFinal p status msg (some c) r), pre ++ acts)
      else
        (some (false,
           "Connection closed: code=" ++ toString c ++ ", reason=" ++
             (if r ≠ "" then r else "No reason provided")),
         pre ++ acts)
    | (.wsErr t, acts) => (some (false, "WebSocket error: " ++ t), pre ++ acts)
    | (.pyErr t, acts) => (some (false, "Unexpected error: " ++ t), pre ++ acts)

/-! ## Static import/call structure of `main.py` against `helpers.py` -/

/-- The names `main.py` imports from `tensorpool.helpers`
(main.py lines 3-37). -/
def mainHelperImports : List String :=
  ["login", "get_tensorpool_key", "get_version", "health_check", "job_push",
   "job_cancel", "job_list", "job_info", "job_listen", "job_pull",
   "get_empty_tp_config", "dump_file", "download_files", "cluster_create",
   "cluster_destroy", "cluster_list", "cluster_info", "cluster_edit",
   "ssh_command", "ssh_key_create", "ssh_key_list", "ssh_key_destroy",
   "fetch_user_info", "storage_create", "storage_destroy", "storage_attach",
   "storage_detach", "storage_list", "storage_info", "storage_edit",
   "safe_input", "safe_confirm", "ENGINE"]

/-- The module-level names `helpers.py` defines (its `def`/`async def`
statements and the `ENGINE` constant). -/
def helpersModuleDefs : List String :=
  ["ENGINE", "safe_input", "safe_confirm", "_get_headers",
   "get_tensorpool_key", "save_tensorpool_key", "login", "get_version",
   "health_check", "dump_file", "get_proj_paths", "get_empty_tp_config",
   "job_listen", "fetch_dashboard", "_job_push_async", "job_push", "job_pull",
   "download_files", "job_cancel", "job_list", "_ws_operation_async",
   "cluster_create", "cluster_destroy", "cluster_list", "cluster_info",
   "job_info", "ssh_command", "fetch_user_info", "nfs_create", "nfs_destroy",
   "nfs_attach", "nfs_detach", "nfs_list", "nfs_info", "cluster_edit",
   "nfs_edit", "ssh_key_create", "ssh_key_list", "ssh_key_destroy"]

/-- A Python function signature: the ordered positional-or-keyword parameter
names, of which the first `required` have no default. -/
structure PySig where
  names : List String
  required : Nat
  deriving Repr, DecidableEq

/-- A Python call site: how many positional arguments are passed, and which
keyword arguments. -/
structure PyCall where
  positional : Nat
  keywords : List String
  deriving Repr, DecidableEq

/-- Python's argument-binding rule for a signature without `*args`/`**kwargs`:
positional arguments bind the leading parameters, each keyword must name a
parameter not already bound positionally, keywords must be distinct, and every
parameter without a default must end up bound.  `true` iff the call would not
raise `TypeError`. -/
def bindsOk (sig : PySig) (c : PyCall) : Bool :=
  decide (c.positional ≤ sig.names.length) &&
  c.keywords.Nodup &&
  c.keywords.all (fun k =>
    match sig.names.indexOf? k with
    | some i => decide (c.positional ≤ i)
    | none => false) &&
  (List.range sig.required).all (fun i =>
    decide (i < c.positional) ||
      (match sig.names.get? i with
       | some n => c.keywords.contains n
       | none => false))

/-- `def job_push(tp_config_path, tensorpool_pub_key_path,
tensorpool_priv_key_path)` — helpers.py lines 540-544, no defaults. -/
def jobPushSig : PySig :=
  ⟨["tp_config_path", "tensorpool_pub_key_path", "tensorpool_priv_key_path"], 3⟩

/-- `job_push(args.tp_config_path)` — main.py line 449. -/
def mainJobPushCall : PyCall := ⟨1, []⟩

/-- `def job_cancel(job_id, no_input=False)` — helpers.py line 805. -/
def jobCancelSig : PySig := ⟨["job_id", "no_input"], 1⟩

/-- `job_cancel(args.job_id, no_input=args.no_input, wait=args.wait)` —
main.py line 516. -/
def mainJobCancelCall : PyCall := ⟨1, ["no_input", "wait"]⟩

/-- `def cluster_create(identity_file, instance_type, name, num_nodes,
deletion_protection=False, no_input=False)` — helpers.py lines 999-1005. -/
def clusterCreateSig : PySig :=
  ⟨["identity_file", "instance_type", "name", "num_nodes",
    "deletion_protection", "no_input"], 4⟩

/-- `cluster_create(identity_file_path, args.instance_type, args.name,
args.num_nodes, args.deletion_protection, no_input=args.no_input,
wait=args.wait)` — main.py lines 544-552. -/
def mainClusterCreateCall : PyCall := ⟨5, ["no_input", "wait"]⟩

/-- `def cluster_destroy(cluster_id, no_input=False)` — helpers.py
line 1073. -/
def clusterDestroySig : PySig := ⟨["cluster_id", "no_input"], 1⟩

/-- `cluster_destroy(args.cluster_id, no_input=args.no_input,
wait=args.wait)` — main.py line 559. -/
def mainClusterDestroyCall : PyCall := ⟨1, ["no_input", "wait"]⟩

/-- `def job_listen(job_id)` — helpers.py line 293. -/
def jobListenSig : PySig := ⟨["job_id"], 1⟩

/-- `job_listen(args.job_id)` — main.py line 464. -/
def mainJobListenCall : PyCall := ⟨1, []⟩

/-! ## Auxiliary state folds and event predicates -/

/-- The `job_id` capture rule of `_job_push_async` (helpers.py lines 402-404)
as a single fold step: assign the frame's value exactly when the key is
present and the current value is falsy (`None` or `""`). -/
def jobIdStep (j : Option String) : PushEvent → Option String
  | .frame f _ => if f.hasJobId && !pyTruthy j then f.jobIdVal else j
  | _ => j

/-- The `job_id` local after a list of events. -/
def jobIdFold (j : Option String) (evs : List PushEvent) : Option String :=
  evs.foldl jobIdStep j

/-- How one non-aborting loop iteration of `_job_push_async` transforms the
persistent locals (`job_id` capture; `stderr` reassigned only by a completed
command execution). -/
def pushStateStep (st : PushState) : PushEvent → PushState
  | .frame f exec =>
    let j := if f.hasJobId && !pyTruthy st.jobId then f.jobIdVal else st.jobId
    if f.hasCommand && pyTruthy f.commandVal then
      match exec with
      | .runs _ _ errLines => ⟨j, some (String.join errLines)⟩
      | .spawnFails _ => ⟨j, st.stderrVar⟩
    else ⟨j, st.stderrVar⟩
  | _ => st

/-- The persistent locals after a list of events. -/
def pushStateFold (st : PushState) (evs : List PushEvent) : PushState :=
  evs.foldl pushStateStep st

/-- A push event that keeps the loop running: a decoded frame that either
carries no (truthy) command or whose command execution completes (possibly
with a nonzero exit code). -/
def PushEvent.benign : PushEvent → Bool
  | .frame f exec =>
    !(f.hasCommand && pyTruthy f.commandVal) ||
      (match exec with
       | .runs _ _ _ => true
       | .spawnFails _ => false)
  | _ => false

/-- A push event on which `recv` or `json.loads` raises. -/
def PushEvent.exceptional : PushEvent → Bool
  | .frame _ _ => false
  | _ => true

/-- A ws event that keeps `_ws_operation_async`'s loop running: a decoded
frame whose `status` is neither `"success"` nor `"error"`. -/
def WsEvent.nonterminal : WsEvent → Bool
  | .frame f _ =>
    !(decide (f.status = some "success")) && !(decide (f.status = some "error"))
  | _ => false

/-- A ws event on which `recv` or `json.loads` raises. -/
def WsEvent.exceptional : WsEvent → Bool
  | .frame _ _ => false
  | _ => true

/-- A `status` value that does not break the loop. -/
def nonTerminalStatus (s : Option String) : Bool :=
  !(decide (s = some "success")) && !(decide (s = some "error"))

/-- How one loop iteration of `_ws_operation_async` updates the `status`
local (overwritten from every decoded frame). -/
def wsStatusStep (s : Option String) : WsEvent → Option String
  | .frame f _ => f.status
  | _ => s

/-- The `status` local after a list of events. -/
def wsStatusFold (s : Option String) (evs : List WsEvent) : Option String :=
  evs.foldl wsStatusStep s

/-- How one loop iteration of `_ws_operation_async` updates the `msg` local
(overwritten from every decoded frame). -/
def wsMsgStep (m : Option String) : WsEvent → Option String
  | .frame f _ => f.message
  | _ => m

/-- The `msg` local after a list of events. -/
def wsMsgFold (m : Option String) (evs : List WsEvent) : Option String :=
  evs.foldl wsMsgStep m

/-! ## Workhorse lemmas -/

/-- Processing one benign event advances the push loop to the stepped state,
leaving the final outcome untouched. -/
theorem pushLoop_cons_benign_fst (e : PushEvent) (evs : List PushEvent)
    (st : PushState) (he : e.benign = true) :
    (pushLoop (e :: evs) st).1 = (pushLoop evs (pushStateStep st e)).1 := by
  cases e with
  | frame f exec =>
    by_cases hc : (f.hasCommand && pyTruthy f.commandVal) = true
    · cases exec with
      | spawnFails t => simp [PushEvent.benign, hc] at he
      | runs ec outs errs => simp [pushLoop, pushCommand, pushStateStep, hc]
    · simp [pushLoop, pushStateStep, hc]
  | badJson t => simp [PushEvent.benign] at he
  | connClosed c r => simp [PushEvent.benign] at he
  | wsError t => simp [PushEvent.benign] at he
  | otherError t => simp [PushEvent.benign] at he

/-- Processing one benign event only prepends actions to the trace. -/
theorem pushLoop_cons_benign_snd (e : PushEvent) (evs : List PushEvent)
    (st : PushState) (he : e.benign = true) :
    ∃ acts, (pushLoop (e :: evs) st).2 =
      acts ++ (pushLoop evs (pushStateStep st e)).2 := by
  cases e with
  | frame f exec =>
    by_cases hc : (f.hasCommand && pyTruthy f.commandVal) = true
    · cases exec with
      | spawnFails t => simp [PushEvent.benign, hc] at he
      | runs ec outs errs =>
        refine ⟨Act.recvFrame f ::
          ((match f.message with
            | some m => [Act.printLine m]
            | none => []) ++
           (pushCommand (f.commandVal.getD "") f.showStdout
              (.runs ec outs errs) st.stderrVar).1), ?_⟩
        simp [pushLoop, pushStateStep, hc, pushCommand]
    · refine ⟨Act.recvFrame f ::
        (match f.message with
         | some m => [Act.printLine m]
         | none => []), ?_⟩
      simp [pushLoop, pushStateStep, hc]
  | badJson t => simp [PushEvent.benign] at he
  | connClosed c r => simp [PushEvent.benign] at he
  | wsError t => simp [PushEvent.benign] at he
  | otherError t => simp [PushEvent.benign] at he

/-- A benign prefix only moves the push loop's state forward. -/
theorem pushLoop_append_fst (pre : List PushEvent) (rest : List PushEvent) :
    ∀ st : PushState, (∀ e ∈ pre, e.benign = true) →
    (pushLoop (pre ++ rest) st).1 = (pushLoop rest (pushStateFold st pre)).1 := by
  induction pre with
  | nil => intro st _; simp [pushStateFold]
  | cons e tl ih =>
    intro st h
    have he : e.benign = true := h e (by simp)
    have htl : ∀ x ∈ tl, x.benign = true := fun x hx => h x (by simp [hx])
    rw [List.cons_append, pushLoop_cons_benign_fst e (tl ++ rest) st he,
      ih (pushStateStep st e) htl]
    simp [pushStateFold]

/-- A benign prefix only prepends actions to the push loop's trace. -/
theorem pushLoop_append_snd (pre : List PushEvent) (rest : List PushEvent) :
    ∀ st : PushState, (∀ e ∈ pre, e.benign = true) →
    ∃ acts, (pushLoop (pre ++ rest) st).2 =
      acts ++ (pushLoop rest (pushStateFold st pre)).2 := by
  induction pre with
  | nil => intro st _; exact ⟨[], by simp [pushStateFold]⟩
  | cons e tl ih =>
    intro st h
    have he : e.benign = true := h e (by simp)
    have htl : ∀ x ∈ tl, x.benign = true := fun x hx => h x (by simp [hx])
    obtain ⟨acts1, h1⟩ := pushLoop_cons_benign_snd e (tl ++ rest) st he
    obtain ⟨acts2, h2⟩ := ih (pushStateStep st e) htl
    refine ⟨acts1 ++ acts2, ?_⟩
    rw [List.cons_append, h1, h2]
    simp [pushStateFold]

/-- The `jobId` component of the state fold is exactly the capture fold. -/
theorem pushStateFold_jobId (evs : List PushEvent) :
    ∀ st : PushState, (pushStateFold st evs).jobId = jobIdFold st.jobId evs := by
  induction evs with
  | nil => intro st; simp [pushStateFold, jobIdFold]
  | cons e tl ih =>
    intro st
    have hstep : (pushStateStep st e).jobId = jobIdStep st.jobId e := by
      cases e with
      | frame f exec =>
        by_cases hc : (f.hasCommand && pyTruthy f.commandVal) = true
        · cases exec <;> simp [pushStateStep, jobIdStep, hc]
        · simp [pushStateStep, jobIdStep, hc]
      | badJson t => simp [pushStateStep, jobIdStep]
      | connClosed c r => simp [pushStateStep, jobIdStep]
      | wsError t => simp [pushStateStep, jobIdStep]
      | otherError t => simp [pushStateStep, jobIdStep]
    calc (pushStateFold st (e :: tl)).jobId
        = (pushStateFold (pushStateStep st e) tl).jobId := by simp [pushStateFold]
      _ = jobIdFold (pushStateStep st e).jobId tl := ih _
      _ = jobIdFold (jobIdStep st.jobId e) tl := by rw [hstep]
      _ = jobIdFold st.jobId (e :: tl) := by simp [jobIdFold]

/-- Once the captured `job_id` is truthy, no later event changes it. -/
theorem jobIdFold_of_truthy (evs : List PushEvent) :
    ∀ j : Option String, pyTruthy j = true → jobIdFold j evs = j := by
  induction evs with
  | nil => intro j _; simp [jobIdFold]
  | cons e tl ih =>
    intro j hj
    have hstep : jobIdStep j e = j := by
      cases e with
      | frame f exec => simp [jobIdStep, hj]
      | badJson t => simp [jobIdStep]
      | connClosed c r => simp [jobIdStep]
      | wsError t => simp [jobIdStep]
      | otherError t => simp [jobIdStep]
    calc jobIdFold j (e :: tl) = jobIdFold (jobIdStep j e) tl := by simp [jobIdFold]
      _ = jobIdFold j tl := by rw [hstep]
      _ = j := ih j hj

/-- Processing one non-terminal event advances the ws loop to the stepped
`status`/`msg` locals, leaving the final exit untouched. -/
theorem wsLoop_cons_nonterminal_fst (p : WsParams) (e : WsEvent)
    (evs : List WsEvent) (s m : Option String) (he : e.nonterminal = true) :
    (wsLoop p (e :: evs) s m).1 =
      (wsLoop p evs (wsStatusStep s e) (wsMsgStep m e)).1 := by
  cases e with
  | frame f line =>
    have hne : f.status ≠ some "success" ∧ f.status ≠ some "error" := by
      simpa [WsEvent.nonterminal, Bool.and_eq_true, decide_eq_false_iff_not]
        using he
    by_cases hi : (p.handleUserInput && f.status = some "input") = true
    · simp [wsLoop, wsStatusStep, wsMsgStep, hi]
    · simp [wsLoop, wsStatusStep, wsMsgStep, hi, hne.1, hne.2]
  | badJson t => simp [WsEvent.nonterminal] at he
  | connClosed c r => simp [WsEvent.nonterminal] at he
  | wsError t => simp [WsEvent.nonterminal] at he
  | otherError t => simp [WsEvent.nonterminal] at he

/-- Processing one non-terminal event only prepends actions to the trace. -/
theorem wsLoop_cons_nonterminal_snd (p : WsParams) (e : WsEvent)
    (evs : List WsEvent) (s m : Option String) (he : e.nonterminal = true) :
    ∃ acts, (wsLoop p (e :: evs) s m).2 =
      acts ++ (wsLoop p evs (wsStatusStep s e) (wsMsgStep m e)).2 := by
  cases e with
  | frame f line =>
    have hne : f.status ≠ some "success" ∧ f.status ≠ some "error" := by
      simpa [WsEvent.nonterminal, Bool.and_eq_true, decide_eq_false_iff_not]
        using he
    by_cases hi : (p.handleUserInput && f.status = some "input") = true
    · refine ⟨Act.recvFrame f ::
        (if p.spinner then [Act.spinnerPause] else []) ++
        [Act.promptRead (if pyTruthy f.message then f.message.getD "" else "")
          line] ++
        (if p.spinner then [Act.spinnerResume] else []) ++
        [Act.send (.response line)], ?_⟩
      simp [wsLoop, wsStatusStep, wsMsgStep, hi]
    · refine ⟨Act.recvFrame f ::
        (if pyTruthy f.message then
          [if p.spinner then Act.spinnerText (f.message.getD "")
           else Act.printLine (f.message.getD "")]
         else []), ?_⟩
      simp [wsLoop, wsStatusStep, wsMsgStep, hi, hne.1, hne.2]
  | badJson t => simp [WsEvent.nonterminal] at he
  | connClosed c r => simp [WsEvent.nonterminal] at he
  | wsError t => simp [WsEvent.nonterminal] at he
  | otherError t => simp [WsEvent.nonterminal] at he

/-- A non-terminal prefix only moves the ws loop's locals forward. -/
theorem wsLoop_append_fst (p : WsParams) (pre rest : List WsEvent) :
    ∀ s m : Option String, (∀ e ∈ pre, e.nonterminal = true) →
    (wsLoop p (pre ++ rest) s m).1 =
      (wsLoop p rest (wsStatusFold s pre) (wsMsgFold m pre)).1 := by
  induction pre with
  | nil => intro s m _; simp [wsStatusFold, wsMsgFold]
  | cons e tl ih =>
    intro s m h
    have he : e.nonterminal = true := h e (by simp)
    have htl : ∀ x ∈ tl, x.nonterminal = true := fun x hx => h x (by simp [hx])
    rw [List.cons_append, wsLoop_cons_nonterminal_fst p e (tl ++ rest) s m he,
      ih (wsStatusStep s e) (wsMsgStep m e) htl]
    simp [wsStatusFold, wsMsgFold]

/-- The `status` local stays non-terminal along a non-terminal prefix. -/
theorem wsStatusFold_nonterminal (evs : List WsEvent) :
    ∀ s : Option String, nonTerminalStatus s = true →
    (∀ e ∈ evs, e.nonterminal = true) →
    nonTerminalStatus (wsStatusFold s evs) = true := by
  induction evs with
  | nil => intro s hs _; simpa [wsStatusFold] using hs
  | cons e tl ih =>
    intro s hs h
    have he : e.nonterminal = true := h e (by simp)
    have htl : ∀ x ∈ tl, x.nonterminal = true := fun x hx => h x (by simp [hx])
    have hstep : nonTerminalStatus (wsStatusStep s e) = true := by
      cases e with
      | frame f line =>
        simpa [WsEvent.nonterminal, wsStatusStep, nonTerminalStatus] using he
      | badJson t => simpa [wsStatusStep, nonTerminalStatus] using hs
      | connClosed c r => simpa [wsStatusStep, nonTerminalStatus] using hs
      | wsError t => simpa [wsStatusStep, nonTerminalStatus] using hs
      | otherError t => simpa [wsStatusStep, nonTerminalStatus] using hs
    have : wsStatusFold s (e :: tl) = wsStatusFold (wsStatusStep s e) tl := by
      simp [wsStatusFold]
    rw [this]
    exact ih (wsStatusStep s e) hstep htl

/-- With a truthy API key the session trace of `_ws_operation_async` starts
with the connect action, then the auth frame, then the payload frame exactly
when a payload was given. -/
theorem ws_trace_head (engine : String) (p : WsParams) (apiKey : Option String)
    (events : List WsEvent) (hk : pyTruthy apiKey = true) :
    ∃ acts, (ws_operation_async engine p apiKey events).2 =
      Act.connect (wsUrl engine p.endpoint) ::
        Act.send (.auth (apiKey.getD "")) ::
        ((match p.payload with
          | some pl => [Act.send (.payloadObj pl)]
          | none => []) ++ acts) := by
  rcases hsplit : wsLoop p events none none with ⟨ex, acts⟩
  cases ex with
  | closed c r s m =>
    refine ⟨acts, ?_⟩
    by_cases h1000 : c = 1000 <;> simp [ws_operation_async, hk, hsplit, h1000]
  | broke s m => exact ⟨acts, by simp [ws_operation_async, hk, hsplit]⟩
  | wsErr t => exact ⟨acts, by simp [ws_operation_async, hk, hsplit]⟩
  | pyErr t => exact ⟨acts, by simp [ws_operation_async, hk, hsplit]⟩
  | pending s m => exact ⟨acts, by simp [ws_operation_async, hk, hsplit]⟩

/-- For any close code, the push session's outcome is success exactly for the
normal-closure code 1000, and it carries the folded `job_id` capture. -/
theorem push_close_fst (engine tpc pkc key pub priv sys : String)
    (ppre : List PushEvent) (code : Nat) (r : String)
    (hp : ∀ e ∈ ppre, e.benign = true) :
    (job_push_async engine tpc pkc key pub priv sys
        (ppre ++ [.connClosed code r])).1 =
      some (decide (code = 1000), jobIdFold none ppre) := by
  have h1 : (job_push_async engine tpc pkc key pub priv sys
      (ppre ++ [.connClosed code r])).1 =
      (pushLoop (ppre ++ [.connClosed code r]) ⟨none, none⟩).1 := by
    simp [job_push_async]
  rw [h1, pushLoop_append_fst ppre _ ⟨none, none⟩ hp]
  by_cases h1000 : code = 1000
  · simp [pushLoop, h1000, pushStateFold_jobId, jobIdFold]
  · by_cases h1006 : code = 1006 <;>
      simp [pushLoop, h1000, h1006, pushStateFold_jobId, jobIdFold]

/-! ## C10 -/

/-- C10: if `get_tensorpool_key` returned a falsy value (`None` or `""`),
`_ws_operation_async` returns
`(False, "TENSORPOOL_KEY not found. Please set your API key.")` and performs
no action at all: no WebSocket connection is opened and no frame is sent
(helpers.py lines 903-905 run before `websockets.connect`). -/
theorem missing_api_key_no_connection (engine : String) (p : WsParams)
    (apiKey : Option String) (events : List WsEvent)
    (h : pyTruthy apiKey = false) :
    ws_operation_async engine p apiKey events =
      (some (false, "TENSORPOOL_KEY not found. Please set your API key."), []) := by
  simp [ws_operation_async, h]

/-- C10 witness: with no key at all, even against a trace that would report
success, the function bails out with the fixed message and an empty trace. -/
theorem missing_api_key_no_connection_witness :
    pyTruthy (none : Option String) = false ∧
    ws_operation_async "https://engine.tensorpool.dev"
        { endpoint := "/cluster/create" } none
        [.frame { status := some "success" } ""] =
      (some (false, "TENSORPOOL_KEY not found. Please set your API key."), []) :=
  ⟨rfl, missing_api_key_no_connection _ _ _ _ rfl⟩

/-! ## C2 -/

/-- C2: when spawning the subprocess raises (here with text "boom") on the
first dispatched command, `_job_push_async` does NOT send a `command_result`
with exit code 1, empty stdout and the exception text as stderr.  The
`except` branch (helpers.py lines 493-496) assigns `stdout` and `returncode`
but never `stderr`, so building the result dict (line 507) raises
`UnboundLocalError`; the generic handler (lines 532-534) prints
"Unexpected error: ..." and the whole session aborts with `(False, None)` —
no `command_result` frame is ever sent. -/
theorem spawn_failure_aborts_session :
    (job_push_async "https://engine.tensorpool.dev" "cfg" "PK" "key" "/pub"
        "/priv" "Linux"
        [.frame { hasCommand := true, commandVal := some "ls" }
          (.spawnFails "boom")]).1 = some (false, none) ∧
    sentFrames (job_push_async "https://engine.tensorpool.dev" "cfg" "PK"
        "key" "/pub" "/priv" "Linux"
        [.frame { hasCommand := true, commandVal := some "ls" }
          (.spawnFails "boom")]).2 =
      [.auth "key", .payloadPush ⟨"cfg", "/pub", "/priv", ["PK"], "Linux"⟩] ∧
    printedLines (job_push_async "https://engine.tensorpool.dev" "cfg" "PK"
        "key" "/pub" "/priv" "Linux"
        [.frame { hasCommand := true, commandVal := some "ls" }
          (.spawnFails "boom")]).2 =
      ["Failed to execute command: boom",
       "Unexpected error: " ++ unboundStderrText] ∧
    executedCommands (job_push_async "https://engine.tensorpool.dev" "cfg" "PK"
        "key" "/pub" "/priv" "Linux"
        [.frame { hasCommand := true, commandVal := some "ls" }
          (.spawnFails "boom")]).2 = ["ls"] := by
  refine ⟨by decide, by decide, by decide, by decide⟩

/-! ## C9 -/

/-- C9: the import/call structure of `main.py` against `helpers.py` is
broken.  All seven `storage_*` names imported by main.py (lines 27-33) are
undefined in helpers.py (which defines `nfs_*` instead), so importing
`tensorpool.main` raises `ImportError`; moreover `job_push` is called with 1
of its 3 required positional arguments, and `job_cancel`, `cluster_create`
and `cluster_destroy` are called with a `wait` keyword none of them accepts.
The call to `job_listen` is well-formed, showing the binding check is not
vacuous. -/
theorem main_helpers_link_broken :
    ("storage_create" ∈ mainHelperImports ∧
      ["storage_create", "storage_destroy", "storage_attach",
       "storage_detach", "storage_list", "storage_info",
       "storage_edit"].all (fun n => mainHelperImports.contains n) = true) ∧
    ["storage_create", "storage_destroy", "storage_attach", "storage_detach",
     "storage_list", "storage_info", "storage_edit"].all
        (fun n => !helpersModuleDefs.contains n) = true ∧
    bindsOk jobPushSig mainJobPushCall = false ∧
    bindsOk jobCancelSig mainJobCancelCall = false ∧
    bindsOk clusterCreateSig mainClusterCreateCall = false ∧
    bindsOk clusterDestroySig mainClusterDestroyCall = false ∧
    bindsOk jobListenSig mainJobListenCall = true := by
  decide

/-! ## C1 -/

/-- C1 counterexample: `job_cancel`, `cluster_destroy`, `nfs_destroy` and
`job_listen` all call `_ws_operation_async` with `payload=None`
(helpers.py lines 315, 827, 1093, 1391), and then no payload frame is sent
at all: in this session the second outbound frame is the `{"response": ...}`
answer to an input request, not an operation payload object. -/
theorem payload_frame_counterexample :
    sentFrames (ws_operation_async "https://engine.tensorpool.dev"
        { endpoint := "/cluster/destroy/abc", handleUserInput := true }
        (some "k")
        [.frame { status := some "input", message := some "Confirm? " } "y",
         .connClosed 1000 ""]).2 =
      [.auth "k", .response "y"] := by
  decide

/-- C1 (amended): the Auth frame is always the first outbound frame of both
session functions; whenever `_ws_operation_async` is given a non-`None`
payload (including `{}`), the payload frame is the second outbound frame
before any other; and `_job_push_async` always sends its job-configuration
object as the second frame.  (When the payload is `None`, no payload frame
is sent.) -/
theorem auth_first_payload_second (engine : String) (p : WsParams)
    (apiKey : Option String) (events : List WsEvent)
    (tpc pkc key pub priv sys : String) (pevents : List PushEvent)
    (hk : pyTruthy apiKey = true) :
    (sentFrames (ws_operation_async engine p apiKey events).2).head? =
        some (.auth (apiKey.getD "")) ∧
    (∀ pl, p.payload = some pl →
      (sentFrames (ws_operation_async engine p apiKey events).2).take 2 =
        [.auth (apiKey.getD ""), .payloadObj pl]) ∧
    (sentFrames (job_push_async engine tpc pkc key pub priv sys pevents).2).take 2 =
      [.auth key, .payloadPush ⟨tpc, pub, priv, [pkc], sys⟩] := by
  obtain ⟨acts, hacts⟩ := ws_trace_head engine p apiKey events hk
  refine ⟨?_, ?_, ?_⟩
  · rw [hacts]
    cases hpl : p.payload <;> simp [sentFrames]
  · intro pl hpl
    rw [hacts, hpl]
    simp [sentFrames]
  · simp [job_push_async, sentFrames]

/-- C1 witness: concrete sessions for both functions, one with payload `{}`. -/
theorem auth_first_payload_second_witness :
    pyTruthy (some "k") = true ∧
    (sentFrames (ws_operation_async "https://engine.tensorpool.dev"
        { endpoint := "/nfs/create", payload := some [] } (some "k")
        [.connClosed 1000 ""]).2).head? = some (.auth "k") ∧
    (∀ pl, (({ endpoint := "/nfs/create", payload := some [] } : WsParams)).payload = some pl →
      (sentFrames (ws_operation_async "https://engine.tensorpool.dev"
          { endpoint := "/nfs/create", payload := some [] } (some "k")
          [.connClosed 1000 ""]).2).take 2 = [.auth "k", .payloadObj pl]) ∧
    (sentFrames (job_push_async "https://engine.tensorpool.dev" "cfg" "PK"
        "k2" "/pub" "/priv" "Linux" []).2).take 2 =
      [.auth "k2", .payloadPush ⟨"cfg", "/pub", "/priv", ["PK"], "Linux"⟩] :=
  ⟨rfl,
   auth_first_payload_second "https://engine.tensorpool.dev"
     { endpoint := "/nfs/create", payload := some [] } (some "k")
     [.connClosed 1000 ""] "cfg" "PK" "k2" "/pub" "/priv" "Linux" [] rfl⟩

/-! ## C3 -/

/-- C3 counterexample: a clean close with code 1000 before any status frame —
so no explicit error status was recorded — makes `_ws_operation_async` return
failure (`status` is still `None`, so lines 989-996 run), not success.  Only
`_job_push_async` treats a bare 1000 close as success. -/
theorem close1000_without_status_fails :
    (ws_operation_async "https://engine.tensorpool.dev"
        { endpoint := "/cluster/create" } (some "k") [.connClosed 1000 ""]).1 =
      some (false, "Connection ended unexpectedly\nClose code: 1000") := by
  decide

/-- C3 (amended): `_job_push_async` treats any close with code 1000 as
success, returning the captured job id, whatever frames preceded it;
`_ws_operation_async`, in contrast, reports failure on a 1000 close whenever
no terminal status frame was received before it. -/
theorem close1000_outcomes
    (engine tpc pkc key pub priv sys : String) (ppre : List PushEvent)
    (r : String) (p : WsParams) (apiKey : Option String)
    (wpre : List WsEvent) (r2 : String)
    (hp : ∀ e ∈ ppre, e.benign = true)
    (hk : pyTruthy apiKey = true)
    (hw : ∀ e ∈ wpre, e.nonterminal = true) :
    (job_push_async engine tpc pkc key pub priv sys
        (ppre ++ [.connClosed 1000 r])).1 = some (true, jobIdFold none ppre) ∧
    ((ws_operation_async engine p apiKey
        (wpre ++ [.connClosed 1000 r2])).1).map Prod.fst = some false := by
  constructor
  · simpa using push_close_fst engine tpc pkc key pub priv sys ppre 1000 r hp
  · rcases hsplit : wsLoop p (wpre ++ [.connClosed 1000 r2]) none none
      with ⟨ex, acts⟩
    have h2 := wsLoop_append_fst p wpre [.connClosed 1000 r2] none none hw
    rw [hsplit] at h2
    have hex : ex = .closed 1000 r2 (wsStatusFold none wpre)
        (wsMsgFold none wpre) := by
      simpa [wsLoop] using h2
    subst hex
    have hnt := wsStatusFold_nonterminal wpre none
      (by simp [nonTerminalStatus]) hw
    have hs1 : wsStatusFold none wpre ≠ some "success" := by
      intro hcon
      rw [hcon] at hnt
      simp [nonTerminalStatus] at hnt
    have hs2 : wsStatusFold none wpre ≠ some "error" := by
      intro hcon
      rw [hcon] at hnt
      simp [nonTerminalStatus] at hnt
    simp [ws_operation_async, hk, hsplit, wsFinal, hs1, hs2]

/-- C3 witness: empty benign prefixes, against concrete arguments. -/
theorem close1000_outcomes_witness :
    (∀ e ∈ ([] : List PushEvent), e.benign = true) ∧
    pyTruthy (some "k") = true ∧
    (∀ e ∈ ([] : List WsEvent), e.nonterminal = true) ∧
    ((job_push_async "https://engine.tensorpool.dev" "cfg" "PK" "key" "/pub"
        "/priv" "Linux" ([] ++ [.connClosed 1000 "done"])).1 =
      some (true, jobIdFold none []) ∧
    ((ws_operation_async "https://engine.tensorpool.dev"
        { endpoint := "/cluster/create" } (some "k")
        ([] ++ [.connClosed 1000 ""])).1).map Prod.fst = some false) :=
  ⟨by simp, rfl, by simp,
   close1000_outcomes "https://engine.tensorpool.dev" "cfg" "PK" "key" "/pub"
     "/priv" "Linux" [] "done" { endpoint := "/cluster/create" } (some "k")
     [] "" (by simp) rfl (by simp)⟩

/-! ## C4 -/

/-- Naive substring test on character lists (statement apparatus only). -/
def hasSubstr (needle : List Char) : List Char → Bool
  | [] => decide (needle = [])
  | c :: tl => needle.isPrefixOf (c :: tl) || hasSubstr needle tl

/-- C4 counterexample: on an abnormal 1006 close before any status frame,
`_ws_operation_async` falls into the same branch as every other non-1000
close (helpers.py lines 971-975) and returns the generic
"Connection closed: code=1006, ..." message, which neither states the
connection was lost nor advises any listing command (it contains neither
"lost" nor "list").  Only `_job_push_async` has the special 1006 wording. -/
theorem close1006_generic_message :
    (ws_operation_async "https://engine.tensorpool.dev"
        { endpoint := "/nfs/destroy/xyz" } (some "k")
        [.connClosed 1006 ""]).1 =
      some (false, "Connection closed: code=1006, reason=No reason provided") ∧
    hasSubstr "lost".toList
      "Connection closed: code=1006, reason=No reason provided".toList = false ∧
    hasSubstr "list".toList
      "Connection closed: code=1006, reason=No reason provided".toList = false := by
  refine ⟨by decide, by decide, by decide⟩

/-- C4 (amended): on a 1006 close before any terminal status,
`_job_push_async` returns failure with the captured job id and prints
"Connection lost during job submission." plus the `tp job list` advice, while
`_ws_operation_async` returns failure with the generic
`Connection closed: code=1006, reason=...` message of its catch-all non-1000
branch (no connection-lost wording, no listing hint). -/
theorem close1006_outcomes
    (engine tpc pkc key pub priv sys : String) (ppre : List PushEvent)
    (r : String) (p : WsParams) (apiKey : Option String)
    (wpre : List WsEvent) (r2 : String)
    (hp : ∀ e ∈ ppre, e.benign = true)
    (hk : pyTruthy apiKey = true)
    (hw : ∀ e ∈ wpre, e.nonterminal = true) :
    (job_push_async engine tpc pkc key pub priv sys
        (ppre ++ [.connClosed 1006 r])).1 = some (false, jobIdFold none ppre) ∧
    "Connection lost during job submission." ∈
      printedLines (job_push_async engine tpc pkc key pub priv sys
        (ppre ++ [.connClosed 1006 r])).2 ∧
    "Check job status with `tp job list`. Job likely has to be resubmitted." ∈
      printedLines (job_push_async engine tpc pkc key pub priv sys
        (ppre ++ [.connClosed 1006 r])).2 ∧
    (ws_operation_async engine p apiKey (wpre ++ [.connClosed 1006 r2])).1 =
      some (false, "Connection closed: code=" ++ toString (1006 : Nat) ++
        ", reason=" ++ (if r2 ≠ "" then r2 else "No reason provided")) := by
  have htr : (job_push_async engine tpc pkc key pub priv sys
      (ppre ++ [.connClosed 1006 r])).2 =
      Act.connect (wsUrl engine "/job/push") :: Act.send (.auth key) ::
        Act.send (.payloadPush ⟨tpc, pub, priv, [pkc], sys⟩) ::
        (pushLoop (ppre ++ [.connClosed 1006 r]) ⟨none, none⟩).2 := by
    simp [job_push_async]
  obtain ⟨acts0, hacts⟩ :=
    pushLoop_append_snd ppre [.connClosed 1006 r] ⟨none, none⟩ hp
  have hprint : printedLines (job_push_async engine tpc pkc key pub priv sys
      (ppre ++ [.connClosed 1006 r])).2 =
      printedLines acts0 ++
        ["Connection lost during job submission.",
         "Check job status with `tp job list`. Job likely has to be resubmitted."] := by
    rw [htr, hacts]
    simp [printedLines, pushLoop, List.filterMap_append]
  refine ⟨?_, ?_, ?_, ?_⟩
  · simpa using push_close_fst engine tpc pkc key pub priv sys ppre 1006 r hp
  · rw [hprint]
    simp
  · rw [hprint]
    simp
  · rcases hsplit : wsLoop p (wpre ++ [.connClosed 1006 r2]) none none
      with ⟨ex, acts⟩
    have h2 := wsLoop_append_fst p wpre [.connClosed 1006 r2] none none hw
    rw [hsplit] at h2
    have hex : ex = .closed 1006 r2 (wsStatusFold none wpre)
        (wsMsgFold none wpre) := by
      simpa [wsLoop] using h2
    subst hex
    simp [ws_operation_async, hk, hsplit]

/-- C4 witness: empty prefixes, concrete arguments, a nonempty close reason
on the ws side. -/
theorem close1006_outcomes_witness :
    (∀ e ∈ ([] : List PushEvent), e.benign = true) ∧
    pyTruthy (some "k") = true ∧
    (∀ e ∈ ([] : List WsEvent), e.nonterminal = true) ∧
    ((job_push_async "https://engine.tensorpool.dev" "cfg" "PK" "key" "/pub"
        "/priv" "Linux" ([] ++ [.connClosed 1006 ""])).1 =
      some (false, jobIdFold none []) ∧
    "Connection lost during job submission." ∈
      printedLines (job_push_async "https://engine.tensorpool.dev" "cfg" "PK"
        "key" "/pub" "/priv" "Linux" ([] ++ [.connClosed 1006 ""])).2 ∧
    "Check job status with `tp job list`. Job likely has to be resubmitted." ∈
      printedLines (job_push_async "https://engine.tensorpool.dev" "cfg" "PK"
        "key" "/pub" "/priv" "Linux" ([] ++ [.connClosed 1006 ""])).2 ∧
    (ws_operation_async "https://engine.tensorpool.dev"
        { endpoint := "/nfs/attach" } (some "k")
        ([] ++ [.connClosed 1006 "going away"])).1 =
      some (false, "Connection closed: code=" ++ toString (1006 : Nat) ++
        ", reason=" ++
          (if "going away" ≠ "" then "going away" else "No reason provided"))) :=
  ⟨by simp, rfl, by simp,
   close1006_outcomes "https://engine.tensorpool.dev" "cfg" "PK" "key" "/pub"
     "/priv" "Linux" [] "" { endpoint := "/nfs/attach" } (some "k") []
     "going away" (by simp) rfl (by simp)⟩

/-! ## C5 -/

/-- C5 counterexample: the first inbound frame carries `job_id = ""`, which
is captured (assigned to the `job_id` local); because the guard
`"job_id" in data and not job_id` tests truthiness rather than
whether a capture happened, the second frame's `"abc"` overwrites it, and
`"abc"` — not the first captured value `""` — is returned. -/
theorem jobid_overwrite_counterexample :
    (job_push_async "https://engine.tensorpool.dev" "cfg" "PK" "key" "/pub"
        "/priv" "Linux"
        [.frame { hasJobId := true, jobIdVal := some "" } (.runs 0 [] []),
         .frame { hasJobId := true, jobIdVal := some "abc" } (.runs 0 [] []),
         .connClosed 1000 ""]).1 = some (true, some "abc") := by
  decide

/-- C5 (amended): the job id returned by `_job_push_async` is the fold of the
source's capture rule (assign the frame's `job_id` exactly while the current
value is falsy) over the received frames; in particular a captured job id
that is truthy (non-null, non-empty) is never overwritten afterwards. -/
theorem jobid_capture_fold (engine tpc pkc key pub priv sys : String)
    (ppre : List PushEvent) (r : String)
    (hp : ∀ e ∈ ppre, e.benign = true) :
    ((job_push_async engine tpc pkc key pub priv sys
        (ppre ++ [.connClosed 1000 r])).1).map Prod.snd =
      some (jobIdFold none ppre) ∧
    ∀ (j : Option String) (evs : List PushEvent),
      pyTruthy j = true → jobIdFold j evs = j := by
  constructor
  · rw [push_close_fst engine tpc pkc key pub priv sys ppre 1000 r hp]
    simp
  · intro j evs hj
    exact jobIdFold_of_truthy evs j hj

/-- C5 witness: a one-frame benign prefix carrying a truthy job id. -/
theorem jobid_capture_fold_witness :
    (∀ e ∈ [PushEvent.frame { hasJobId := true, jobIdVal := some "job-7" }
      (.runs 0 [] [])], e.benign = true) ∧
    (((job_push_async "https://engine.tensorpool.dev" "cfg" "PK" "key" "/pub"
        "/priv" "Linux"
        ([.frame { hasJobId := true, jobIdVal := some "job-7" }
            (.runs 0 [] [])] ++ [.connClosed 1000 ""])).1).map Prod.snd =
      some (jobIdFold none
        [.frame { hasJobId := true, jobIdVal := some "job-7" }
          (.runs 0 [] [])]) ∧
    ∀ (j : Option String) (evs : List PushEvent),
      pyTruthy j = true → jobIdFold j evs = j) :=
  ⟨by decide,
   jobid_capture_fold "https://engine.tensorpool.dev" "cfg" "PK" "key" "/pub"
     "/priv" "Linux"
     [.frame { hasJobId := true, jobIdVal := some "job-7" } (.runs 0 [] [])]
     "" (by decide)⟩

/-! ## C6 -/

/-- C6: for an inbound frame with `status == "input"` while
`handle_user_input` is enabled (helpers.py lines 935-953), the loop pauses
the spinner if one is attached, reads one line using the frame's message as
the prompt (empty prompt when the message is falsy), resumes the spinner,
sends exactly one `{"response": line}` frame, and continues the loop on the
remaining events — the frame's message is not routed through the
message-display path (no `spinnerText`/`printLine` action is emitted for this
frame) and the session does not terminate on it. -/
theorem input_prompt_relay (p : WsParams) (f : InFrame) (line : String)
    (rest : List WsEvent) (status msg : Option String)
    (h1 : p.handleUserInput = true) (h2 : f.status = some "input") :
    wsLoop p (.frame f line :: rest) status msg =
      ((wsLoop p rest f.status f.message).1,
       (Act.recvFrame f ::
          (if p.spinner then [Act.spinnerPause] else []) ++
          [Act.promptRead
            (if pyTruthy f.message then f.message.getD "" else "") line] ++
          (if p.spinner then [Act.spinnerResume] else []) ++
          [Act.send (.response line)]) ++
        (wsLoop p rest f.status f.message).2) := by
  simp [wsLoop, h1, h2]

/-- Concrete frame for the C6 witness. -/
def promptFrame : InFrame :=
  { status := some "input", message := some "Confirm? [y/n] " }

/-- Concrete parameters for the C6 witness. -/
def promptParams : WsParams :=
  { endpoint := "/cluster/create", spinner := true, handleUserInput := true }

/-- C6 witness: a concrete input frame with a spinner attached. -/
theorem input_prompt_relay_witness :
    promptParams.handleUserInput = true ∧
    promptFrame.status = some "input" ∧
    wsLoop promptParams [.frame promptFrame "y"] none none =
      ((wsLoop promptParams [] promptFrame.status promptFrame.message).1,
       (Act.recvFrame promptFrame ::
          (if promptParams.spinner then [Act.spinnerPause] else []) ++
          [Act.promptRead
            (if pyTruthy promptFrame.message then promptFrame.message.getD ""
             else "") "y"] ++
          (if promptParams.spinner then [Act.spinnerResume] else []) ++
          [Act.send (.response "y")]) ++
        (wsLoop promptParams [] promptFrame.status promptFrame.message).2) :=
  ⟨rfl, rfl, input_prompt_relay promptParams promptFrame "y" [] none none rfl rfl⟩

/-! ## C7 -/

/-- The command-dispatch block on a completed execution sends exactly one
`command_result` frame carrying the command, its exit code and the captured
output, and attempts exactly one execution. -/
theorem pushCommand_runs_sends (c : String) (showStdout : Bool) (ec : Int)
    (outs errs : List String) (sv : Option String) :
    sentFrames (pushCommand c showStdout (.runs ec outs errs) sv).1 =
      [.commandResult c ec (String.join outs) (String.join errs)] ∧
    executedCommands (pushCommand c showStdout (.runs ec outs errs) sv).1 =
      [c] := by
  constructor <;>
  · simp only [pushCommand, sentFrames, executedCommands]
    split_ifs <;> simp

/-- C7 counterexample: a frame with the truthy command "run.sh" whose spawn
raises; the session sends no `command_result` at all (the only outbound
frames of the whole session are the auth and payload frames) because the
`except` branch leaves `stderr` unbound and the session aborts. -/
theorem command_without_result_counterexample :
    sentFrames (job_push_async "https://engine.tensorpool.dev" "cfg2" "PK2"
        "key2" "/pub2" "/priv2" "Darwin"
        [.frame { hasCommand := true, commandVal := some "run.sh" }
          (.spawnFails "exec format error")]).2 =
      [.auth "key2",
       .payloadPush ⟨"cfg2", "/pub2", "/priv2", ["PK2"], "Darwin"⟩] := by
  decide

/-- C7 (amended): for a frame whose `command` is null or empty, the executor
is not invoked and nothing is sent for that frame (the loop just records
`job_id`/prints the message and moves on); for a truthy command whose spawn
does not raise, exactly one `command_result` frame — carrying the command,
its exit code, and the captured stdout/stderr — is emitted, and it is placed
in the trace before anything produced by the remaining events, so it is sent
before the next inbound frame is processed. -/
theorem command_result_dispatch (f : InFrame) (exec : ExecBehavior)
    (rest : List PushEvent) (st : PushState) :
    (pyTruthy f.commandVal = false →
      pushLoop (.frame f exec :: rest) st =
        ((pushLoop rest
            ⟨jobIdStep st.jobId (.frame f exec), st.stderrVar⟩).1,
         (Act.recvFrame f ::
            (match f.message with
             | some m => [Act.printLine m]
             | none => [])) ++
           (pushLoop rest
             ⟨jobIdStep st.jobId (.frame f exec), st.stderrVar⟩).2)) ∧
    (∀ c ec outs errs, f.hasCommand = true → f.commandVal = some c →
      c ≠ "" → exec = .runs ec outs errs →
      pushLoop (.frame f exec :: rest) st =
        ((pushLoop rest
            ⟨jobIdStep st.jobId (.frame f exec), some (String.join errs)⟩).1,
         Act.recvFrame f ::
           (match f.message with
            | some m => [Act.printLine m]
            | none => []) ++
           (pushCommand c f.showStdout exec st.stderrVar).1 ++
           (pushLoop rest
             ⟨jobIdStep st.jobId (.frame f exec),
              some (String.join errs)⟩).2) ∧
      sentFrames (pushCommand c f.showStdout exec st.stderrVar).1 =
        [.commandResult c ec (String.join outs) (String.join errs)] ∧
      executedCommands (pushCommand c f.showStdout exec st.stderrVar).1 =
        [c]) := by
  constructor
  · intro hcv
    simp [pushLoop, jobIdStep, hcv]
  · intro c ec outs errs hhc hcv hne hexec
    subst hexec
    have hie : c.isEmpty = false := by
      rcases hb : c.isEmpty with _ | _
      · rfl
      · exact absurd ((String.isEmpty_iff c).mp hb) hne
    have hpt : pyTruthy (some c) = true := by
      simp [pyTruthy, hie]
    refine ⟨?_, (pushCommand_runs_sends c f.showStdout ec outs errs
      st.stderrVar).1, (pushCommand_runs_sends c f.showStdout ec outs errs
      st.stderrVar).2⟩
    simp [pushLoop, pushCommand, jobIdStep, hhc, hcv, hpt]

/-- C7 witness: instantiates both halves — an empty-command frame, and a
frame running `echo hi` which exits 0 with stdout "hi\n". -/
theorem command_result_dispatch_witness :
    pyTruthy (InFrame.commandVal { hasCommand := true, commandVal := some "" })
        = false ∧
    pushLoop
        [.frame { hasCommand := true, commandVal := some "" }
          (.runs 0 [] [])] ⟨none, none⟩ =
      ((pushLoop []
          ⟨jobIdStep (PushState.jobId ⟨none, none⟩)
            (.frame { hasCommand := true, commandVal := some "" }
              (.runs 0 [] [])),
           PushState.stderrVar ⟨none, none⟩⟩).1,
       (Act.recvFrame { hasCommand := true, commandVal := some "" } ::
          (match InFrame.message
              { hasCommand := true, commandVal := some "" } with
           | some m => [Act.printLine m]
           | none => [])) ++
         (pushLoop []
           ⟨jobIdStep (PushState.jobId ⟨none, none⟩)
             (.frame { hasCommand := true, commandVal := some "" }
               (.runs 0 [] [])),
            PushState.stderrVar ⟨none, none⟩⟩).2) ∧
    sentFrames (pushCommand "echo hi" false (.runs 0 ["hi\n"] []) none).1 =
      [.commandResult "echo hi" 0 (String.join ["hi\n"]) (String.join [])] ∧
    executedCommands
        (pushCommand "echo hi" false (.runs 0 ["hi\n"] []) none).1 =
      ["echo hi"] :=
  ⟨rfl,
   (command_result_dispatch
      { hasCommand := true, commandVal := some "" } (.runs 0 [] []) []
      ⟨none, none⟩).1 rfl,
   ((command_result_dispatch
      { hasCommand := true, commandVal := some "echo hi" }
      (.runs 0 ["hi\n"] []) [] ⟨none, none⟩).2 "echo hi" 0 ["hi\n"] [] rfl rfl
      (by decide) rfl).2.1,
   ((command_result_dispatch
      { hasCommand := true, commandVal := some "echo hi" }
      (.runs 0 ["hi\n"] []) [] ⟨none, none⟩).2 "echo hi" 0 ["hi\n"] [] rfl rfl
      (by decide) rfl).2.2⟩

/-! ## C8 -/

/-- C8: every exception the session can raise — malformed JSON from
`json.loads`, `ConnectionClosed`, any other `WebSocketException`, any other
exception — is caught inside the session function and reduced to a returned
outcome: after any run of non-terminal frames, an exceptional event always
yields `some` result from both `_ws_operation_async` and `_job_push_async`
(first two conjuncts), and a malformed frame in particular aborts the whole
session with a failure outcome: `(False, "Unexpected error: ...")` for
`_ws_operation_async` and `(False, None)` for `_job_push_async` (last two
conjuncts). -/
theorem session_exceptions_contained
    (engine : String) (p : WsParams) (apiKey : Option String)
    (wpre : List WsEvent) (e : WsEvent) (t : String)
    (tpc pkc key pub priv sys : String) (ppre : List PushEvent)
    (e2 : PushEvent)
    (hk : pyTruthy apiKey = true)
    (hw : ∀ x ∈ wpre, x.nonterminal = true)
    (he : e.exceptional = true)
    (hp : ∀ x ∈ ppre, x.benign = true)
    (he2 : e2.exceptional = true) :
    ((ws_operation_async engine p apiKey (wpre ++ [e])).1).isSome = true ∧
    ((job_push_async engine tpc pkc key pub priv sys
        (ppre ++ [e2])).1).isSome = true ∧
    (ws_operation_async engine p apiKey (wpre ++ [.badJson t])).1 =
      some (false, "Unexpected error: " ++ t) ∧
    (job_push_async engine tpc pkc key pub priv sys
        (ppre ++ [.badJson t])).1 = some (false, none) := by
  have hpush : ∀ ev : PushEvent,
      (job_push_async engine tpc pkc key pub priv sys (ppre ++ [ev])).1 =
        (pushLoop [ev] (pushStateFold ⟨none, none⟩ ppre)).1 := by
    intro ev
    have h1 : (job_push_async engine tpc pkc key pub priv sys
        (ppre ++ [ev])).1 =
        (pushLoop (ppre ++ [ev]) ⟨none, none⟩).1 := by
      simp [job_push_async]
    rw [h1, pushLoop_append_fst ppre [ev] ⟨none, none⟩ hp]
  refine ⟨?_, ?_, ?_, ?_⟩
  · rcases hsplit : wsLoop p (wpre ++ [e]) none none with ⟨ex, acts⟩
    have h2 := wsLoop_append_fst p wpre [e] none none hw
    rw [hsplit] at h2
    cases e with
    | frame f l => simp [WsEvent.exceptional] at he
    | badJson s =>
      have hex : ex = .pyErr s := by simpa [wsLoop] using h2
      subst hex
      simp [ws_operation_async, hk, hsplit]
    | connClosed c r =>
      have hex : ex = .closed c r (wsStatusFold none wpre)
          (wsMsgFold none wpre) := by
        simpa [wsLoop] using h2
      subst hex
      by_cases h1000 : c = 1000
      · subst h1000
        simp [ws_operation_async, hk, hsplit]
      · simp [ws_operation_async, hk, hsplit, h1000]
    | wsError s =>
      have hex : ex = .wsErr s := by simpa [wsLoop] using h2
      subst hex
      simp [ws_operation_async, hk, hsplit]
    | otherError s =>
      have hex : ex = .pyErr s := by simpa [wsLoop] using h2
      subst hex
      simp [ws_operation_async, hk, hsplit]
  · rw [hpush e2]
    cases e2 with
    | frame f exec => simp [PushEvent.exceptional] at he2
    | badJson s => simp [pushLoop]
    | connClosed c r =>
      by_cases h1000 : c = 1000
      · simp [pushLoop, h1000]
      · by_cases h1006 : c = 1006 <;> simp [pushLoop, h1000, h1006]
    | wsError s => simp [pushLoop]
    | otherError s => simp [pushLoop]
  · rcases hsplit : wsLoop p (wpre ++ [.badJson t]) none none with ⟨ex, acts⟩
    have h2 := wsLoop_append_fst p wpre [.badJson t] none none hw
    rw [hsplit] at h2
    have hex : ex = .pyErr t := by simpa [wsLoop] using h2
    subst hex
    simp [ws_operation_async, hk, hsplit]
  · rw [hpush (.badJson t)]
    simp [pushLoop]

/-- C8 witness: one non-terminal frame on each side, a ping-timeout-style
`ConnectionClosed` on the ws side, a `WebSocketException` on the push side,
and a JSON decode failure for the malformed-frame conjuncts. -/
theorem session_exceptions_contained_witness :
    pyTruthy (some "k") = true ∧
    (∀ x ∈ [WsEvent.frame { message := some "provisioning" } ""],
      x.nonterminal = true) ∧
    WsEvent.exceptional (.connClosed 1011 "ping timeout") = true ∧
    (∀ x ∈ [PushEvent.frame { message := some "uploading" } (.runs 0 [] [])],
      x.benign = true) ∧
    PushEvent.exceptional (PushEvent.wsError "socket error") = true ∧
    (((ws_operation_async "https://engine.tensorpool.dev"
        { endpoint := "/cluster/create" } (some "k")
        ([.frame { message := some "provisioning" } ""] ++
          [.connClosed 1011 "ping timeout"])).1).isSome = true ∧
    ((job_push_async "https://engine.tensorpool.dev" "cfg" "PK" "key" "/pub"
        "/priv" "Linux"
        ([.frame { message := some "uploading" } (.runs 0 [] [])] ++
          [.wsError "socket error"])).1).isSome = true ∧
    (ws_operation_async "https://engine.tensorpool.dev"
        { endpoint := "/cluster/create" } (some "k")
        ([.frame { message := some "provisioning" } ""] ++
          [.badJson "Expecting value: line 1 column 1 (char 0)"])).1 =
      some (false,
        "Unexpected error: " ++ "Expecting value: line 1 column 1 (char 0)") ∧
    (job_push_async "https://engine.tensorpool.dev" "cfg" "PK" "key" "/pub"
        "/priv" "Linux"
        ([.frame { message := some "uploading" } (.runs 0 [] [])] ++
          [.badJson "Expecting value: line 1 column 1 (char 0)"])).1 =
      some (false, none)) :=
  ⟨rfl, by decide, rfl, by decide, rfl,
   session_exceptions_contained "https://engine.tensorpool.dev"
     { endpoint := "/cluster/create" } (some "k")
     [.frame { message := some "provisioning" } ""]
     (.connClosed 1011 "ping timeout")
     "Expecting value: line 1 column 1 (char 0)" "cfg" "PK" "key" "/pub"
     "/priv" "Linux" [.frame { message := some "uploading" } (.runs 0 [] [])]
     (.wsError "socket error") rfl (by decide) rfl (by decide) rfl⟩

end Tensorpool
